import Mathlib

/-
  Verification development for the dooray-mcp server.

  The definitions below are a shallow embedding of the core of the
  repository: the JSON value model used by tool handlers, the error
  classes of src/utils/errors.ts, the tool dispatch handler of the
  server entry point (the CallToolRequestSchema handler), the DoorayClient
  transfer protocol of src/api/client.ts (uploadFile, downloadFile,
  extractResult, the response interceptor), and the curl-based
  uploadAttachmentHandler of src/tools/projects/upload-attachment.ts.
  HTTP is modelled as a pure environment function from requests to
  responses; each transfer operation additionally returns the list of
  requests it issued, so that request-counting properties can be stated.
-/

namespace DoorayMCP

/-- A JSON value, as produced by JSON.parse and consumed by the handlers. -/
inductive Json where
  | null : Json
  | bool : Bool → Json
  | num : Int → Json
  | str : String → Json
  | arr : List Json → Json
  | obj : List (String × Json) → Json

/-- JavaScript truthiness of a JSON value. -/
def Json.truthy : Json → Bool
  | .null => false
  | .bool b => b
  | .num n => n != 0
  | .str s => s != ""
  | .arr _ => true
  | .obj _ => true

/-- The zod type name of a JSON value, used in validation messages. -/
def Json.typeName : Json → String
  | .null => "null"
  | .bool _ => "boolean"
  | .num _ => "number"
  | .str _ => "string"
  | .arr _ => "array"
  | .obj _ => "object"

/-- JSON string escaping for the characters that can occur in this
development (backslash, quote, newline). -/
def jsonEscapeChar (c : Char) : String :=
  if c = '\\' then "\\\\"
  else if c = '"' then "\\\""
  else if c = '\n' then "\\n"
  else String.singleton c

/-- A JSON string literal: quotes around the escaped characters. -/
def jsonQuote (s : String) : String :=
  "\"" ++ String.join (s.toList.map jsonEscapeChar) ++ "\""

mutual

/-- JSON.stringify(v, null, 2): pretty printing with a two-space gap, at
the given accumulated indentation, as used by the tool handlers when
rendering a payload to text. -/
def stringify2 (indent : String) : Json → String
  | .null => "null"
  | .bool b => cond b "true" "false"
  | .num n => toString n
  | .str s => jsonQuote s
  | .arr [] => "[]"
  | .arr (x :: xs) =>
      "[\n" ++ (indent ++ "  ") ++ stringify2Items (indent ++ "  ") x xs
        ++ "\n" ++ indent ++ "]"
  | .obj [] => "\x7b\x7d"
  | .obj (f :: fs) =>
      "\x7b\n" ++ (indent ++ "  ") ++ stringify2Fields (indent ++ "  ") f fs
        ++ "\n" ++ indent ++ "\x7d"
termination_by j => sizeOf j
decreasing_by
  all_goals simp_wf

/-- Renders a nonempty list of array elements, separated by a comma, a
newline and the indentation. -/
def stringify2Items (indent : String) : Json → List Json → String
  | x, [] => stringify2 indent x
  | x, y :: rest =>
      stringify2 indent x ++ ",\n" ++ indent ++ stringify2Items indent y rest
termination_by x xs => 1 + sizeOf x + sizeOf xs
decreasing_by
  all_goals simp_wf
  all_goals omega

/-- Renders a nonempty list of object fields, separated by a comma, a
newline and the indentation. -/
def stringify2Fields (indent : String) :
    String × Json → List (String × Json) → String
  | (k, v), [] => jsonQuote k ++ ": " ++ stringify2 indent v
  | (k, v), g :: rest =>
      jsonQuote k ++ ": " ++ stringify2 indent v ++ ",\n" ++ indent
        ++ stringify2Fields indent g rest
termination_by f fs => 1 + sizeOf f + sizeOf fs
decreasing_by
  all_goals simp_wf
  all_goals omega

end

/-- The JavaScript a || b idiom on an optional string: the default is taken
both when the value is absent (undefined) and when it is the empty string
(falsy). -/
def jsOrDefault (o : Option String) (d : String) : String :=
  match o with
  | some s => if s == "" then d else s
  | none => d

/-- Truthiness of an optional string: present and nonempty. -/
def jsStrTruthy : Option String → Bool
  | some s => s != ""
  | none => false

/-- JavaScript parseInt(s, 10): skip whitespace, optional sign, then a
nonempty run of leading digits; none models NaN. -/
def jsParseInt (s : String) : Option Int :=
  let t := s.trim
  let signed : Bool × List Char :=
    match t.toList with
    | '-' :: rest => (true, rest)
    | '+' :: rest => (false, rest)
    | cs => (false, cs)
  let digits := signed.2.takeWhile Char.isDigit
  if digits.isEmpty then none
  else
    let n : Nat := digits.foldl (fun acc c => acc * 10 + (c.toNat - 48)) 0
    some (if signed.1 then -(n : Int) else (n : Int))

/-- One entry of a zod validation error: the path to the offending field
and the per-field message (the errors array of a ZodError). -/
structure ZodIssue where
  path : List String
  message : String
deriving Repr, DecidableEq

/-- The thrown values that occur in the codebase, mirroring
src/utils/errors.ts plus the errors produced by axios and zod:
authentication is the AuthenticationError subclass of DoorayAPIError
(statusCode 401), doorayAPI is DoorayAPIError, validationErr is
ValidationError, plainError is a plain Error, axiosError is the error
axios raises when validateStatus rejects a response status, and zodError
is a ZodError carrying its issues. -/
inductive JsError where
  | authentication : String → JsError
  | doorayAPI : String → Option Nat → JsError
  | validationErr : String → JsError
  | plainError : String → JsError
  | axiosError : Nat → JsError
  | zodError : List ZodIssue → JsError
deriving Repr, DecidableEq

/-- The message property of a thrown error. Every constructor models an
Error instance; the axios message is the one axios builds for a status
rejected by validateStatus, and a ZodError message is the pretty-printed
issues array. -/
def JsError.message : JsError → String
  | .authentication m => m
  | .doorayAPI m _ => m
  | .validationErr m => m
  | .plainError m => m
  | .axiosError status => "Request failed with status code " ++ toString status
  | .zodError issues =>
      stringify2 "" (Json.arr (issues.map (fun i =>
        Json.obj [("path", Json.arr (i.path.map Json.str)),
                  ("message", Json.str i.message)])))

/-- The status details suffix of formatError: present only for a truthy
statusCode. -/
def statusDetails : Option Nat → String
  | some n => if n != 0 then " (Status: " ++ toString n ++ ")" else ""
  | none => ""

/-- formatError of src/utils/errors.ts: DoorayAPIError instances (the
AuthenticationError subclass included, whose statusCode is always 401) get
the Dooray API Error prefix and status details, ValidationError gets the
Validation Error prefix, and any other Error yields its message. -/
def formatError : JsError → String
  | .authentication m => "Dooray API Error: " ++ m ++ " (Status: 401)"
  | .doorayAPI m statusCode => "Dooray API Error: " ++ m ++ statusDetails statusCode
  | .validationErr m => "Validation Error: " ++ m
  | e => e.message

/-- One content item of a tool result. -/
structure TextContent where
  type : String
  text : String
deriving Repr, DecidableEq

/-- The uniform result shape of a tool call; isError is an optional field,
none models its absence. -/
structure ToolResult where
  content : List TextContent
  isError : Option Bool := none
deriving Repr, DecidableEq

/-- An error-shaped tool result with a single text item, as built by the
dispatch handler and the handlers own catch blocks. -/
def mkErrorResult (text : String) : ToolResult :=
  { content := [{ type := "text", text := text }], isError := some true }

/-- A well-formed tool result: nonempty content, each item of type text. -/
def wellFormedResult (r : ToolResult) : Bool :=
  !r.content.isEmpty && r.content.all (fun c => c.type == "text")

/-- A registry entry: the zod input schema (parse either returns the
validated arguments or throws) and the handler (which returns a ToolResult
or throws). -/
structure ToolSpec where
  parse : Json → Except JsError Json
  handler : Json → Except JsError ToolResult

/-- Registry lookup by tool name (toolRegistry[name]). -/
def lookupTool (registry : List (String × ToolSpec)) (name : String) :
    Option ToolSpec :=
  (registry.find? (fun p => p.1 == name)).map (fun p => p.2)

/-- args || in the dispatch handler: an absent or falsy arguments value is
replaced by the empty object. -/
def jsOrEmptyObj : Option Json → Json
  | some j => if j.truthy then j else Json.obj []
  | none => Json.obj []

/-- The per-field messages of a ZodError as joined by the dispatch handler:
path joined with dots, a colon, the message, entries joined by a comma and
space. -/
def zodErrorMessages (issues : List ZodIssue) : String :=
  String.intercalate ", " (issues.map (fun i =>
    String.intercalate "." i.path ++ ": " ++ i.message))

/-- The catch block of the dispatch handler: an error with an errors
property (a ZodError) is formatted as a Validation Error, anything else as
Error plus the message. -/
def dispatchCatch (e : JsError) : ToolResult :=
  match e with
  | .zodError issues => mkErrorResult ("Validation Error: " ++ zodErrorMessages issues)
  | _ => mkErrorResult ("Error: " ++ e.message)

/-- The try block of the dispatch handler for a found tool: validate the
arguments, run the handler, convert any thrown error via the catch block. -/
def runTool (tool : ToolSpec) (args : Option Json) : ToolResult :=
  match tool.parse (jsOrEmptyObj args) >>= tool.handler with
  | .ok result => result
  | .error e => dispatchCatch e

/-- The CallToolRequestSchema handler of the server entry point: look the
tool up in the registry, answer unknown names with an error result, and
otherwise run the validation/handler pipeline under the catch-all. -/
def dispatch (registry : List (String × ToolSpec)) (name : String)
    (args : Option Json) : ToolResult :=
  match lookupTool registry name with
  | none => mkErrorResult ("Error: Unknown tool \x27" ++ name ++ "\x27")
  | some tool => runTool tool args

/-- The server loop handling a sequence of tool-call requests: each request
is dispatched independently. -/
def serveAll (registry : List (String × ToolSpec))
    (requests : List (String × Option Json)) : List ToolResult :=
  requests.map (fun r => dispatch registry r.1 r.2)

/-- The HTTP verbs used by the transfer protocol. -/
inductive HttpMethod where
  | get : HttpMethod
  | post : HttpMethod
deriving Repr, DecidableEq

/-- An outgoing HTTP request: verb, target URL, optional body (the form
data of an upload), query params, and the Authorization header value. -/
structure HttpRequest where
  method : HttpMethod
  url : String
  body : Option String
  params : List (String × String)
  authorization : String
deriving Repr, DecidableEq

/-- An HTTP response: status, headers (keys lowercased, as axios
normalizes them), and the parsed body. -/
structure HttpResponse where
  status : Nat
  headers : List (String × String)
  body : Json

/-- Header access response.headers[key]. -/
def headerValue (headers : List (String × String)) (key : String) :
    Option String :=
  (headers.find? (fun p => p.1 == key)).map (fun p => p.2)

/-- The default axios validateStatus: 2xx only. -/
def is2xx (status : Nat) : Bool :=
  200 ≤ status && status < 300

/-- The validateStatus of the transfer clients: exactly 307 or 2xx. -/
def transferValidateStatus (status : Nat) : Bool :=
  status == 307 || is2xx status

namespace DoorayClient

/-- The initial request of uploadFile: a POST of the form data to the full
URL with the dooray-api Authorization header. -/
def uploadInitialRequest (fullUrl formData auth : String) : HttpRequest :=
  { method := .post, url := fullUrl, body := some formData, params := [],
    authorization := auth }

/-- The follow-up request of uploadFile: the same POST body and
Authorization header, re-sent to the Location URL. -/
def uploadRedirectRequest (locationUrl formData auth : String) : HttpRequest :=
  { method := .post, url := locationUrl, body := some formData, params := [],
    authorization := auth }

/-- The outcome uploadFile derives from the follow-up response: its data
on a 2xx, the axios status rejection otherwise (the follow-up client uses
the default validateStatus). -/
def uploadFollowUpOutcome (res : HttpResponse) : Except JsError Json :=
  if is2xx res.status then .ok res.body else .error (.axiosError res.status)

/-- DoorayClient.uploadFile of src/api/client.ts: issue the initial POST
with redirects disabled and validateStatus accepting 307 and 2xx; return
the data directly on a non-307 (2xx) response; on a 307, require a truthy
Location header (else DoorayAPIError) and replay the POST to it. Returns
the outcome together with the list of requests issued. -/
def uploadFile (env : HttpRequest → HttpResponse)
    (fullUrl formData auth : String) :
    Except JsError Json × List HttpRequest :=
  let initReq := uploadInitialRequest fullUrl formData auth
  let initRes := env initReq
  if !transferValidateStatus initRes.status then
    (.error (.axiosError initRes.status), [initReq])
  else if initRes.status != 307 then
    (.ok initRes.body, [initReq])
  else
    let locationUrl := headerValue initRes.headers "location"
    if jsStrTruthy locationUrl then
      let req2 := uploadRedirectRequest (locationUrl.getD "") formData auth
      (uploadFollowUpOutcome (env req2), [initReq, req2])
    else
      (.error (.doorayAPI "307 redirect received but no Location header found" none),
       [initReq])

/-- The result record of downloadFile: the binary payload and the
Content-Type, Content-Disposition and Content-Length headers of the
authoritative response. -/
structure DownloadResult where
  data : Json
  contentType : String
  contentDisposition : Option String
  contentLength : Option Int

/-- Builds the downloadFile result from a response: data is the body,
contentType defaults to application/octet-stream, contentLength is
parseInt of the Content-Length header defaulted to the string 0. -/
def mkDownloadResult (res : HttpResponse) : DownloadResult :=
  { data := res.body,
    contentType := jsOrDefault (headerValue res.headers "content-type")
      "application/octet-stream",
    contentDisposition := headerValue res.headers "content-disposition",
    contentLength := jsParseInt
      (jsOrDefault (headerValue res.headers "content-length") "0") }

/-- The initial request of downloadFile: a GET of the full URL with the
query params and the dooray-api Authorization header. -/
def downloadInitialRequest (fullUrl : String)
    (params : List (String × String)) (auth : String) : HttpRequest :=
  { method := .get, url := fullUrl, body := none, params := params,
    authorization := auth }

/-- The follow-up request of downloadFile: the same GET params and
Authorization header, re-sent to the Location URL. -/
def downloadRedirectRequest (locationUrl : String)
    (params : List (String × String)) (auth : String) : HttpRequest :=
  { method := .get, url := locationUrl, body := none, params := params,
    authorization := auth }

/-- The outcome downloadFile derives from the follow-up response. -/
def downloadFollowUpOutcome (res : HttpResponse) :
    Except JsError DownloadResult :=
  if is2xx res.status then .ok (mkDownloadResult res)
  else .error (.axiosError res.status)

/-- DoorayClient.downloadFile of src/api/client.ts: same two-step protocol
as uploadFile, with GET, query params forwarded to both legs, and the
binary result record built from the authoritative response. -/
def downloadFile (env : HttpRequest → HttpResponse) (fullUrl : String)
    (params : List (String × String)) (auth : String) :
    Except JsError DownloadResult × List HttpRequest :=
  let initReq := downloadInitialRequest fullUrl params auth
  let initRes := env initReq
  if !transferValidateStatus initRes.status then
    (.error (.axiosError initRes.status), [initReq])
  else if initRes.status != 307 then
    (.ok (mkDownloadResult initRes), [initReq])
  else
    let locationUrl := headerValue initRes.headers "location"
    if jsStrTruthy locationUrl then
      let req2 := downloadRedirectRequest (locationUrl.getD "") params auth
      (downloadFollowUpOutcome (env req2), [initReq, req2])
    else
      (.error (.doorayAPI "307 redirect received but no Location header found" none),
       [initReq])

/-- The envelope header of every JSON API response. -/
structure ApiHeader where
  isSuccessful : Bool
  resultMessage : Option String
deriving Repr, DecidableEq

/-- The body of an ordinary (non-paginated) API response. -/
structure ApiResponseBody where
  header : ApiHeader
  result : Json

/-- DoorayClient.extractResult of src/api/client.ts: on an unsuccessful
envelope header throw DoorayAPIError with the header message (defaulted to
API request failed) and the HTTP status; otherwise return the result
payload. A pure function of the response. -/
def extractResult (status : Nat) (body : ApiResponseBody) :
    Except JsError Json :=
  if !body.header.isSuccessful then
    .error (.doorayAPI (jsOrDefault body.header.resultMessage "API request failed")
      (some status))
  else
    .ok body.result

end DoorayClient

/-- The getMyMemberInfoHandler of
src/tools/common/get-my-member-info.ts, as a function of the outcome of
the remote getMyMemberInfo call: on success a single text item holding
JSON.stringify(result, null, 2) and no isError field; on a thrown error a
text item with the Error prefix around formatError and isError true. -/
def getMyMemberInfoHandler (remote : Except JsError Json) : ToolResult :=
  match remote with
  | .ok result =>
      { content := [{ type := "text", text := stringify2 "" result }],
        isError := none }
  | .error e => mkErrorResult ("Error: " ++ formatError e)

/-- The parse of the empty zod object schema z.object(): any object
validates to the empty object (unknown keys stripped), anything else
throws a ZodError with a root-path type issue. -/
def emptyObjectSchemaParse (j : Json) : Except JsError Json :=
  match j with
  | .obj _ => .ok (Json.obj [])
  | other =>
      .error (.zodError
        [⟨[], "Expected object, received " ++ other.typeName⟩])

/-- The registry entry for get-my-member-info, as a function of the
outcome of the remote call its handler performs. -/
def getMyMemberInfoSpec (remote : Except JsError Json) : ToolSpec :=
  { parse := emptyObjectSchemaParse,
    handler := fun _ => .ok (getMyMemberInfoHandler remote) }

/-- A concrete member payload used for evaluations. -/
def wAlice : Json := Json.obj [("id", Json.str "42"), ("name", Json.str "Alice")]

/-- A one-entry registry whose remote call succeeds with the wAlice
payload. -/
def wRegistryOk : List (String × ToolSpec) :=
  [("get-my-member-info", getMyMemberInfoSpec (.ok wAlice))]

/-- An environment realizing the two-step redirect: the storage URL
answers 200 with a success envelope, every other URL answers 307 pointing
at the storage URL. -/
def envRedirect : HttpRequest → HttpResponse := fun req =>
  if req.url == "https://storage/x" then
    { status := 200,
      headers := [("content-type", "application/json")],
      body := Json.obj [("header", Json.obj [("isSuccessful", Json.bool true)]),
                        ("result", Json.obj [("id", Json.str "f1")])] }
  else
    { status := 307, headers := [("location", "https://storage/x")],
      body := Json.null }

/-- An environment that always answers 307 without a Location header. -/
def envNoLocation : HttpRequest → HttpResponse := fun _ =>
  { status := 307, headers := [], body := Json.null }

/-- A successful envelope with payload P. -/
def wEnvelopeOk : DoorayClient.ApiResponseBody :=
  { header := { isSuccessful := true, resultMessage := none },
    result := Json.str "P" }

/-- A failed envelope with message boom. -/
def wEnvelopeFail : DoorayClient.ApiResponseBody :=
  { header := { isSuccessful := false, resultMessage := some "boom" },
    result := Json.null }

/-- Helper: a successful registry lookup returns the spec of some entry of
the registry. -/
theorem lookupTool_mem (registry : List (String × ToolSpec)) (name : String)
    (tool : ToolSpec) (h : lookupTool registry name = some tool) :
    ∃ p ∈ registry, p.2 = tool := by
  unfold lookupTool at h
  cases hf : registry.find? (fun p => p.1 == name) with
  | none => rw [hf] at h; cases h
  | some p =>
      rw [hf] at h
      simp only [Option.map_some'] at h
      exact ⟨p, List.mem_of_find?_eq_some hf, Option.some.inj h⟩

/-- Claim C4: extractResult returns the payload of a successful envelope;
on an unsuccessful envelope whose message is present and nonempty (the
invariant the spec states for failures) it fails with a DoorayAPIError
whose message equals exactly the envelope message, carrying the HTTP
status; it is a pure function (a plain definition) of its input. -/
theorem extractResult_unwrap (status : Nat)
    (body : DoorayClient.ApiResponseBody) :
    (body.header.isSuccessful = true →
      DoorayClient.extractResult status body = .ok body.result) ∧
    (body.header.isSuccessful = false → ∀ m : String,
      body.header.resultMessage = some m → m ≠ "" →
      DoorayClient.extractResult status body =
        .error (.doorayAPI m (some status))) := by
  constructor
  · intro hs
    simp [DoorayClient.extractResult, hs]
  · intro hs m hm hne
    simp [DoorayClient.extractResult, hs, hm, jsOrDefault, hne]

/-- Witness for C4 at two concrete envelopes. -/
theorem extractResult_unwrap_witness :
    DoorayClient.extractResult 200 wEnvelopeOk = .ok (Json.str "P") ∧
    DoorayClient.extractResult 500 wEnvelopeFail =
      .error (.doorayAPI "boom" (some 500)) :=
  ⟨(extractResult_unwrap 200 wEnvelopeOk).1 rfl,
   (extractResult_unwrap 500 wEnvelopeFail).2 rfl "boom" rfl (by decide)⟩

/-- Claim C10: an initial 307 transfer response with no (or empty, hence
falsy) Location header makes both uploadFile and downloadFile fail with a
DoorayAPIError reading 307 redirect received but no Location header found,
and no second request is issued. -/
theorem redirect_without_location
    (env : HttpRequest → HttpResponse) (url formData auth : String)
    (params : List (String × String))
    (hu : (env (DoorayClient.uploadInitialRequest url formData auth)).status = 307)
    (huL : jsStrTruthy (headerValue
      (env (DoorayClient.uploadInitialRequest url formData auth)).headers
      "location") = false)
    (hd : (env (DoorayClient.downloadInitialRequest url params auth)).status = 307)
    (hdL : jsStrTruthy (headerValue
      (env (DoorayClient.downloadInitialRequest url params auth)).headers
      "location") = false) :
    DoorayClient.uploadFile env url formData auth =
      (.error (.doorayAPI "307 redirect received but no Location header found" none),
       [DoorayClient.uploadInitialRequest url formData auth]) ∧
    DoorayClient.downloadFile env url params auth =
      (.error (.doorayAPI "307 redirect received but no Location header found" none),
       [DoorayClient.downloadInitialRequest url params auth]) := by
  constructor
  · simp [DoorayClient.uploadFile, hu, huL, transferValidateStatus, is2xx]
  · simp [DoorayClient.downloadFile, hd, hdL, transferValidateStatus, is2xx]

/-- Witness for C10 at a concrete environment answering a bare 307. -/
theorem redirect_without_location_witness :
    DoorayClient.uploadFile envNoLocation "https://api.dooray.com/u" "form" "auth" =
      (.error (.doorayAPI "307 redirect received but no Location header found" none),
       [DoorayClient.uploadInitialRequest "https://api.dooray.com/u" "form" "auth"]) :=
  (redirect_without_location envNoLocation "https://api.dooray.com/u" "form"
    "auth" [] rfl rfl rfl rfl).1

/-- Claim C6 counterexample: for the unknown name unknown-tool the
dispatch text carries the Error prefix, so it is not exactly the quoted
Unknown tool text the claim states. -/
theorem unknownTool_counterexample :
    dispatch wRegistryOk "unknown-tool" none =
      mkErrorResult "Error: Unknown tool \x27unknown-tool\x27" ∧
    dispatch wRegistryOk "unknown-tool" none ≠
      { content := [⟨"text", "Unknown tool \x27unknown-tool\x27"⟩],
        isError := some true } := by
  have h1 : dispatch wRegistryOk "unknown-tool" none =
      mkErrorResult "Error: Unknown tool \x27unknown-tool\x27" := rfl
  refine ⟨h1, ?_⟩
  rw [h1]
  decide

/-- Claim C6 amended: for a name absent from the registry, dispatch
returns isError true with text Error: Unknown tool followed by the quoted
name, and the failure is not fatal: dispatch returns normally and the
serving loop handles subsequent requests unchanged. -/
theorem unknownTool_errorResult
    (registry : List (String × ToolSpec)) (name : String) (args : Option Json)
    (rest : List (String × Option Json))
    (h : lookupTool registry name = none) :
    dispatch registry name args =
      mkErrorResult ("Error: Unknown tool \x27" ++ name ++ "\x27") ∧
    serveAll registry ((name, args) :: rest) =
      mkErrorResult ("Error: Unknown tool \x27" ++ name ++ "\x27") ::
        serveAll registry rest := by
  have h1 : dispatch registry name args =
      mkErrorResult ("Error: Unknown tool \x27" ++ name ++ "\x27") := by
    unfold dispatch
    rw [h]
  exact ⟨h1, by simp [serveAll, h1]⟩

/-- Witness for the amended C6 at a concrete registry and name. -/
theorem unknownTool_errorResult_witness :
    dispatch wRegistryOk "unknown-tool" none =
      mkErrorResult ("Error: Unknown tool \x27" ++ "unknown-tool" ++ "\x27") :=
  (unknownTool_errorResult wRegistryOk "unknown-tool" none [] rfl).1

/-- Claim C7: when the registered tool's schema rejects the raw arguments
with a ZodError, dispatch returns isError true with the Validation Error
prefix and the comma-joined per-field messages, and the result does not
depend on the handler at all (any tool with the same validator and any
handler yields the same result), so the handler is never invoked and no
network call is made. -/
theorem validation_failure_result
    (registry : List (String × ToolSpec)) (name : String) (args : Option Json)
    (tool : ToolSpec) (issues : List ZodIssue)
    (hl : lookupTool registry name = some tool)
    (hp : tool.parse (jsOrEmptyObj args) = .error (.zodError issues)) :
    dispatch registry name args =
      mkErrorResult ("Validation Error: " ++ zodErrorMessages issues) ∧
    ∀ tool2 : ToolSpec, tool2.parse = tool.parse →
      runTool tool2 args = dispatch registry name args := by
  have hd : dispatch registry name args =
      mkErrorResult ("Validation Error: " ++ zodErrorMessages issues) := by
    unfold dispatch
    rw [hl]
    show runTool tool args = _
    unfold runTool
    rw [hp]
    rfl
  refine ⟨hd, ?_⟩
  intro tool2 hparse
  rw [hd]
  unfold runTool
  rw [hparse, hp]
  rfl

/-- Witness for C7: non-object arguments for get-my-member-info. -/
theorem validation_failure_result_witness :
    dispatch wRegistryOk "get-my-member-info" (some (Json.str "x")) =
      mkErrorResult ("Validation Error: " ++
        zodErrorMessages [⟨[], "Expected object, received string"⟩]) :=
  (validation_failure_result wRegistryOk "get-my-member-info"
    (some (Json.str "x")) (getMyMemberInfoSpec (.ok wAlice))
    [⟨[], "Expected object, received string"⟩] rfl rfl).1

/-- Helper: the pretty-printed rendering of the member payload. -/
theorem stringify2_wAlice :
    stringify2 "" wAlice = "\x7b\n  \"id\": \"42\",\n  \"name\": \"Alice\"\n\x7d" := by
  have hid : jsonQuote "id" = "\"id\"" := rfl
  have h42 : jsonQuote "42" = "\"42\"" := rfl
  have hname : jsonQuote "name" = "\"name\"" := rfl
  have halice : jsonQuote "Alice" = "\"Alice\"" := rfl
  simp [wAlice, stringify2, stringify2Fields, hid, h42, hname, halice]

/-- Claim C9 amended: dispatching get-my-member-info over a successful
envelope with the wAlice payload yields the payload serialized by
JSON.stringify with a two-space indent (not the compact form), and the
success result carries no isError field at all (the handler omits it)
rather than isError false. -/
theorem getMyMemberInfo_success_result :
    dispatch wRegistryOk "get-my-member-info" (some (Json.obj [])) =
      { content := [⟨"text", "\x7b\n  \"id\": \"42\",\n  \"name\": \"Alice\"\n\x7d"⟩],
        isError := none } := by
  have h1 : dispatch wRegistryOk "get-my-member-info" (some (Json.obj [])) =
      { content := [⟨"text", stringify2 "" wAlice⟩], isError := none } := rfl
  rw [h1, stringify2_wAlice]

/-- Claim C9 counterexample: the actual success result differs from the
claimed one - the text is the pretty-printed JSON, not the compact
serialization, and isError is absent instead of false. -/
theorem getMyMemberInfo_result_counterexample :
    dispatch wRegistryOk "get-my-member-info" (some (Json.obj [])) ≠
      { content := [⟨"text", "\x7b\"id\":\"42\",\"name\":\"Alice\"\x7d"⟩],
        isError := some false } := by
  have h1 : dispatch wRegistryOk "get-my-member-info" (some (Json.obj [])) =
      { content := [⟨"text", stringify2 "" wAlice⟩], isError := none } := rfl
  rw [h1, stringify2_wAlice]
  decide

/-- Claim C1: dispatch is a total function - unknown names, validation
failures and handler throws are all converted to results, so no exception
escapes to the caller - and, provided every registered handler only
returns well-formed results, its output is always a well-formed ToolResult
(nonempty content whose items all have type text, with the optional
isError flag). -/
theorem dispatch_total_wellFormed
    (registry : List (String × ToolSpec)) (name : String) (args : Option Json)
    (hreg : ∀ p ∈ registry, ∀ v r, p.2.handler v = .ok r →
      wellFormedResult r = true) :
    wellFormedResult (dispatch registry name args) = true := by
  unfold dispatch
  cases hl : lookupTool registry name with
  | none => rfl
  | some tool =>
      show wellFormedResult (runTool tool args) = true
      unfold runTool
      cases hp : tool.parse (jsOrEmptyObj args) with
      | error e => cases e <;> rfl
      | ok v =>
          rw [show (Except.ok v >>= tool.handler : Except JsError ToolResult) =
            tool.handler v from rfl]
          cases hh : tool.handler v with
          | error e => cases e <;> rfl
          | ok r =>
              obtain ⟨p, hmem, hpe⟩ := lookupTool_mem registry name tool hl
              exact hreg p hmem v r (by rw [hpe]; exact hh)

/-- Witness for C1 at the concrete registry, whose single handler returns
a well-formed result. -/
theorem dispatch_total_wellFormed_witness :
    wellFormedResult
      (dispatch wRegistryOk "get-my-member-info" (some (Json.obj []))) = true :=
  dispatch_total_wellFormed wRegistryOk "get-my-member-info" (some (Json.obj []))
    (by
      intro p hp v r hr
      have hp2 : p = ("get-my-member-info", getMyMemberInfoSpec (.ok wAlice)) := by
        simpa [wRegistryOk] using hp
      subst hp2
      have hr2 : Except.ok (getMyMemberInfoHandler (.ok wAlice)) =
          (.ok r : Except JsError ToolResult) := hr
      cases hr2
      rfl)

/-- Claim C2: on an initial 307 with a truthy Location L, both uploadFile
and downloadFile issue exactly one follow-up request, to L, with the same
method, the same body (upload) and query params (download), and the same
Authorization header as the initial request, and the outcome is derived
from that follow-up response alone (its data on 2xx, the status rejection
otherwise), making the follow-up response authoritative. -/
theorem transfer_redirect_replay
    (env : HttpRequest → HttpResponse) (url formData auth L : String)
    (params : List (String × String))
    (hu : (env (DoorayClient.uploadInitialRequest url formData auth)).status = 307)
    (huL : headerValue
      (env (DoorayClient.uploadInitialRequest url formData auth)).headers
      "location" = some L)
    (hLne : L ≠ "")
    (hd : (env (DoorayClient.downloadInitialRequest url params auth)).status = 307)
    (hdL : headerValue
      (env (DoorayClient.downloadInitialRequest url params auth)).headers
      "location" = some L) :
    DoorayClient.uploadFile env url formData auth =
      (DoorayClient.uploadFollowUpOutcome
         (env (DoorayClient.uploadRedirectRequest L formData auth)),
       [DoorayClient.uploadInitialRequest url formData auth,
        DoorayClient.uploadRedirectRequest L formData auth]) ∧
    (DoorayClient.uploadRedirectRequest L formData auth).url = L ∧
    (DoorayClient.uploadRedirectRequest L formData auth).method =
      (DoorayClient.uploadInitialRequest url formData auth).method ∧
    (DoorayClient.uploadRedirectRequest L formData auth).body =
      (DoorayClient.uploadInitialRequest url formData auth).body ∧
    (DoorayClient.uploadRedirectRequest L formData auth).authorization =
      (DoorayClient.uploadInitialRequest url formData auth).authorization ∧
    DoorayClient.downloadFile env url params auth =
      (DoorayClient.downloadFollowUpOutcome
         (env (DoorayClient.downloadRedirectRequest L params auth)),
       [DoorayClient.downloadInitialRequest url params auth,
        DoorayClient.downloadRedirectRequest L params auth]) ∧
    (DoorayClient.downloadRedirectRequest L params auth).url = L ∧
    (DoorayClient.downloadRedirectRequest L params auth).method =
      (DoorayClient.downloadInitialRequest url params auth).method ∧
    (DoorayClient.downloadRedirectRequest L params auth).params =
      (DoorayClient.downloadInitialRequest url params auth).params ∧
    (DoorayClient.downloadRedirectRequest L params auth).authorization =
      (DoorayClient.downloadInitialRequest url params auth).authorization := by
  refine ⟨?_, rfl, rfl, rfl, rfl, ?_, rfl, rfl, rfl, rfl⟩
  · simp [DoorayClient.uploadFile, hu, huL, transferValidateStatus, is2xx,
      jsStrTruthy, hLne]
  · simp [DoorayClient.downloadFile, hd, hdL, transferValidateStatus, is2xx,
      jsStrTruthy, hLne]

/-- Witness for C2 at a concrete redirecting environment. -/
theorem transfer_redirect_replay_witness :
    DoorayClient.uploadFile envRedirect "https://api.dooray.com/up" "form" "auth" =
      (DoorayClient.uploadFollowUpOutcome
         (envRedirect (DoorayClient.uploadRedirectRequest "https://storage/x" "form" "auth")),
       [DoorayClient.uploadInitialRequest "https://api.dooray.com/up" "form" "auth",
        DoorayClient.uploadRedirectRequest "https://storage/x" "form" "auth"]) :=
  (transfer_redirect_replay envRedirect "https://api.dooray.com/up" "form" "auth"
    "https://storage/x" [] rfl rfl (by decide) rfl rfl).1

end DoorayMCP
